import Mathlib

set_option maxRecDepth 8192

/-!
Verification development for the PV dashboard logger
(`gh_pages/pv_logger.py`).

Shallow embedding conventions:
* Python `str` values become Lean `String` / `List Char`.
* Python `float` results become `ℚ` (every value the program compares or
  stores in the properties below is exactly representable).
* Fallible code returns `Option` / `Except`; a value of `none` / `.error`
  stands for Python `None` / a raised exception.
* The browser-automation layer (playwright) is an external collaborator:
  its observable outcomes (authentication/navigation result, selector-wait
  result, extracted raw texts) are inputs to the embedded `run_once`.
* Filesystem state of the CSV log is an explicit `StoreState` value:
  `none` means the file does not exist; `some s` holds the header line and
  the data rows.
-/

/-- Minute-precision timezone-aware datetime, the shape produced by
`datetime.strptime(...).replace(tzinfo=JST)` and by
`datetime.now(tz=JST).replace(second=0, microsecond=0)` in the source
(seconds and microseconds are never observed through
`isoformat(timespec="minutes")`, so they are omitted). -/
structure PyDateTime where
  year : ℕ
  month : ℕ
  day : ℕ
  hour : ℕ
  minute : ℕ
  tz : String
deriving DecidableEq, Repr

/-- The fixed named timezone `ZoneInfo("Asia/Tokyo")` (line 14 of the source). -/
def JST : String := "Asia/Tokyo"

/-- Zero-pad a number to two digits, as `datetime.isoformat` does. -/
def pad2 (n : ℕ) : String :=
  if n < 10 then "0" ++ toString n else toString n

/-- Zero-pad a number to four digits, as `datetime.isoformat` does for years. -/
def pad4 (n : ℕ) : String :=
  if n < 10 then "000" ++ toString n
  else if n < 100 then "00" ++ toString n
  else if n < 1000 then "0" ++ toString n
  else toString n

/-- `d.isoformat(timespec="minutes")` for a JST-aware datetime: the UTC
offset of Asia/Tokyo is the constant `+09:00` (no DST), which is the only
timezone ever attached by the program. -/
def isoMinutes (d : PyDateTime) : String :=
  pad4 d.year ++ "-" ++ pad2 d.month ++ "-" ++ pad2 d.day ++ "T" ++
    pad2 d.hour ++ ":" ++ pad2 d.minute ++ "+09:00"

/-! ## Numeric parser `to_f` (source lines 47–50)

```python
def to_f(x: str):
    if not x: return None
    m = re.search(r"[-+]?\d+(?:[.,]\d+)?", x.replace(",", ""))
    return float(m.group(0)) if m else None
```
-/

/-- `x.replace(",", "")`: every comma is removed (single-character pattern,
so replacement is exactly a filter). -/
def stripCommas (s : String) : List Char :=
  s.data.filter (fun c => c != ',')

/-- Body of the regular expression `\d+(?:[.,]\d+)?` matched at the head of
`l`: a maximal nonempty digit run, optionally followed by `.` or `,` and a
further maximal nonempty digit run (the separator-and-fraction group is
taken only when at least one digit follows the separator, as the greedy
backtracking regex does).  Returns the matched characters. -/
def matchBody (l : List Char) : Option (List Char) :=
  let ds := l.takeWhile Char.isDigit
  if ds = [] then none
  else
    match l.dropWhile Char.isDigit with
    | sep :: rest2 =>
      if sep = '.' ∨ sep = ',' then
        let fs := rest2.takeWhile Char.isDigit
        if fs = [] then some ds else some (ds ++ sep :: fs)
      else some ds
    | [] => some ds

/-- The full pattern `[-+]?\d+(?:[.,]\d+)?` matched at the head of `l`.
When the head is a sign the body must start right after it (if it does not,
backtracking to the empty sign cannot succeed either, since a sign is not a
digit). -/
def matchAt (l : List Char) : Option (List Char) :=
  match l with
  | [] => none
  | c :: rest =>
    if c = '-' ∨ c = '+' then (matchBody rest).map (fun t => c :: t)
    else matchBody l

/-- `re.search`: try the pattern at each successive start position and
return the leftmost match. -/
def reSearch : List Char → Option (List Char)
  | [] => none
  | c :: rest =>
    match matchAt (c :: rest) with
    | some t => some t
    | none => reSearch rest

/-- Numeric value of a decimal digit character. -/
def digitVal (c : Char) : ℕ := c.toNat - 48

/-- Value of a digit string. -/
def natVal (l : List Char) : ℕ :=
  l.foldl (fun a c => 10 * a + digitVal c) 0

/-- Model of Python `float(s)` on an unsigned body, restricted to the forms
`digits`, `digits.digits`, `digits.`, `.digits` (no exponent, no spaces);
any other input — a comma included — yields `none`, standing for the
`ValueError` that `float` raises. -/
def pyFloatBody (l : List Char) : Option ℚ :=
  let ds := l.takeWhile Char.isDigit
  match l.dropWhile Char.isDigit with
  | [] => if ds = [] then none else some (mkRat (natVal ds) 1)
  | sep :: r2 =>
    if sep = '.' then
      let fs := r2.takeWhile Char.isDigit
      if r2.dropWhile Char.isDigit = [] then
        if ds = [] ∧ fs = [] then none
        else some (mkRat (natVal ds * 10 ^ fs.length + natVal fs) (10 ^ fs.length))
      else none
    else none

/-- Model of Python `float(s)`: optional sign, then a body as above. -/
def pyFloat (l : List Char) : Option ℚ :=
  match l with
  | [] => none
  | c :: rest =>
    if c = '-' then (pyFloatBody rest).map (fun q => -q)
    else if c = '+' then pyFloatBody rest
    else pyFloatBody (c :: rest)

/-- `to_f` (source lines 47–50).  The argument is `Option String` because
the call sites pass `data.get(k)`, which may be `None`; `if not x` treats
`None` and the empty string alike. -/
def to_f (x : Option String) : Option ℚ :=
  match x with
  | none => none
  | some s =>
    if s = "" then none
    else
      match reSearch (stripCommas s) with
      | none => none
      | some tok => pyFloat tok

/-- `true` exactly when the Python `to_f` would raise: a regex match was
found but `float` rejects the matched token.  (The totality claim is that
this is never `true`.) -/
def to_f_raises (x : Option String) : Bool :=
  match x with
  | none => false
  | some s =>
    if s = "" then false
    else
      match reSearch (stripCommas s) with
      | none => false
      | some tok => (pyFloat tok).isNone

/-! ## Timestamp parser `parse_time` (source lines 52–59)

```python
def parse_time(s: str):
    s = (s or "").replace("現在", "").strip()
    for fmt in ("%Y/%m/%d %H:%M", "%Y-%m-%d %H:%M"):
        try:
            return dt.datetime.strptime(s, fmt).replace(tzinfo=JST)
        except:
            pass
    return None
```
-/

/-- `s.replace("現在", "")`: remove every occurrence of the two-character
as-of marker, scanning left to right. -/
def stripMarker : List Char → List Char
  | '現' :: '在' :: rest => stripMarker rest
  | c :: rest => c :: stripMarker rest
  | [] => []

/-- Python `str.strip()`: drop leading and trailing whitespace. -/
def trimChars (l : List Char) : List Char :=
  ((l.dropWhile Char.isWhitespace).reverse.dropWhile Char.isWhitespace).reverse

/-- `%Y` in CPython `_strptime` is exactly four digits. -/
def readFixed4 : List Char → Option (ℕ × List Char)
  | a :: b :: c :: d :: rest =>
    if a.isDigit ∧ b.isDigit ∧ c.isDigit ∧ d.isDigit then
      some (1000 * digitVal a + 100 * digitVal b + 10 * digitVal c + digitVal d, rest)
    else none
  | _ => none

/-- A literal character of the format string. -/
def readLit (ch : Char) : List Char → Option (List Char)
  | c :: rest => if c = ch then some rest else none
  | [] => none

/-- Whitespace in a format string matches `\s+` in CPython `_strptime`. -/
def readWs : List Char → Option (List Char)
  | c :: rest =>
    if c.isWhitespace then some (rest.dropWhile Char.isWhitespace) else none
  | [] => none

/-- A one-or-two-digit numeric field (`%m`, `%d`, `%H`, `%M`).  CPython
compiles these to bounded alternations (e.g. `1[0-2]|0[1-9]|[1-9]` for
`%m`): when two digits are present the two-digit value must lie in
`[lo2, hi2]`; a lone digit must lie in `[lo1, hi1]`.  Backtracking from a
two-digit match to a one-digit match never helps here because every field
is followed by a non-digit literal or end-of-input check, which the
leftover second digit would violate. -/
def read2or1 (lo2 hi2 lo1 hi1 : ℕ) : List Char → Option (ℕ × List Char)
  | c1 :: c2 :: rest =>
    if c1.isDigit ∧ c2.isDigit then
      let v := 10 * digitVal c1 + digitVal c2
      if lo2 ≤ v ∧ v ≤ hi2 then some (v, rest) else none
    else if c1.isDigit then
      let v := digitVal c1
      if lo1 ≤ v ∧ v ≤ hi1 then some (v, c2 :: rest) else none
    else none
  | [c1] =>
    if c1.isDigit then
      let v := digitVal c1
      if lo1 ≤ v ∧ v ≤ hi1 then some (v, []) else none
    else none
  | [] => none

/-- Gregorian leap-year rule, as `datetime` validates dates. -/
def leapYear (y : ℕ) : Bool :=
  y % 4 = 0 ∧ (y % 100 ≠ 0 ∨ y % 400 = 0)

/-- Length of a month, as `datetime` validates dates. -/
def daysInMonth (y m : ℕ) : ℕ :=
  if m = 2 then (if leapYear y then 29 else 28)
  else if m = 4 ∨ m = 6 ∨ m = 9 ∨ m = 11 then 30
  else 31

/-- `datetime.strptime(s, "%Y<sep>%m<sep>%d %H:%M").replace(tzinfo=JST)`
for `sep` either `/` or `-`: the whole input must be consumed, field
values are range-checked as the compiled regex does, and the resulting
date is validated (`MINYEAR = 1`, day within the month) as the `datetime`
constructor does; any failure raises, which the caller's bare `except`
turns into trying the next format. -/
def strptimeDate (sep : Char) (l : List Char) : Option PyDateTime :=
  match readFixed4 l with
  | none => none
  | some (y, r1) =>
  match readLit sep r1 with
  | none => none
  | some r2 =>
  match read2or1 1 12 1 9 r2 with
  | none => none
  | some (mo, r3) =>
  match readLit sep r3 with
  | none => none
  | some r4 =>
  match read2or1 1 31 1 9 r4 with
  | none => none
  | some (d, r5) =>
  match readWs r5 with
  | none => none
  | some r6 =>
  match read2or1 0 23 0 9 r6 with
  | none => none
  | some (h, r7) =>
  match readLit ':' r7 with
  | none => none
  | some r8 =>
  match read2or1 0 59 0 9 r8 with
  | none => none
  | some (mi, r9) =>
    if r9 = [] ∧ 1 ≤ y ∧ d ≤ daysInMonth y mo then
      some ⟨y, mo, d, h, mi, JST⟩
    else none

/-- The cleaning step of `parse_time`: strip the as-of marker, then strip
surrounding whitespace. -/
def cleanTime (s : String) : List Char :=
  trimChars (stripMarker s.data)

/-- `parse_time` (source lines 52–59): try `%Y/%m/%d %H:%M`, then
`%Y-%m-%d %H:%M`, returning `none` when both fail. -/
def parse_time (s : String) : Option PyDateTime :=
  match strptimeDate '/' (cleanTime s) with
  | some d => some d
  | none => strptimeDate '-' (cleanTime s)

/-! ## Configuration resolver `load_cfg` (source lines 27–45)

The environment is modelled as a partial map from variable names to values
(`none` = unset).  `os.getenv(k, d)` is `(env k).getD d`.  The
`data_csv.parent.mkdir` side effect is filesystem-only and not observable
through any claim, so it is omitted.
-/

deriving instance DecidableEq for Except

/-- The configuration record `Cfg` (source lines 16–25). -/
structure Cfg where
  login_url : String
  dashboard_url : String
  username : String
  password : String
  us : String
  ps : String
  sb : String
  time_sel : String
  sels : List String
  data_csv : String
deriving DecidableEq, Repr

/-- `os.getenv(k, d)`. -/
def envGet (env : String → Option String) (k d : String) : String :=
  (env k).getD d

/-- The resolved username: `os.getenv("USERNAME", os.getenv("PV_USERNAME", ""))`. -/
def cfgUser (env : String → Option String) : String :=
  envGet env "USERNAME" (envGet env "PV_USERNAME" "")

/-- The resolved password: `os.getenv("PASSWORD", os.getenv("PV_PASSWORD", ""))`. -/
def cfgPass (env : String → Option String) : String :=
  envGet env "PASSWORD" (envGet env "PV_PASSWORD" "")

/-- The default `METRIC_SELECTORS` value (source lines 38–40). -/
def defaultSelectors : String :=
  "span.value.todaySellPower,span.value.todayBuyPower,span.value.todayConsPower,span.value.todaySelfConsPower,span.value.todayGeneratedPower"

/-- Python `s.split(",")`: split at every comma, keeping empty pieces. -/
def splitComma : List Char → List (List Char)
  | [] => [[]]
  | ',' :: rest => [] :: splitComma rest
  | c :: rest =>
    match splitComma rest with
    | p :: t => (c :: p) :: t
    | [] => [[c]]

/-- The resolved metric-selector list:
`[s.strip() for s in os.getenv("METRIC_SELECTORS", default).split(",")]`. -/
def cfgSels (env : String → Option String) : List String :=
  (splitComma (envGet env "METRIC_SELECTORS" defaultSelectors).data).map
    (fun p => (trimChars p).asString)

/-- `load_cfg` (source lines 27–45).  `raise SystemExit(msg)` becomes
`Except.error msg`; the two validations happen in source order, before any
browser action. -/
def load_cfg (env : String → Option String) : Except String Cfg :=
  if cfgUser env = "" ∨ cfgPass env = "" then
    Except.error "PV_USERNAME/PV_PASSWORD 未設定"
  else if (cfgSels env).length < 5 then
    Except.error "METRIC_SELECTORS は5本必要です"
  else
    Except.ok
      ⟨envGet env "LOGIN_URL" "https://d1hcvh8gvguktg.cloudfront.net/login.html",
       envGet env "DASHBOARD_URL" "https://d1hcvh8gvguktg.cloudfront.net/index.html",
       cfgUser env, cfgPass env,
       envGet env "USERNAME_SELECTOR" "input[name=\x27username\x27]",
       envGet env "PASSWORD_SELECTOR" "input[name=\x27password\x27]",
       envGet env "SUBMIT_SELECTOR" ".login-btnArea button",
       envGet env "TIME_SELECTOR" ".measurementWidget .updateTime",
       cfgSels env,
       "docs/data/pv_log.csv"⟩

/-! ## The log store (source lines 136–141)

```python
if cfg.data_csv.exists():
    df = pd.read_csv(cfg.data_csv)
    df = pd.concat([df, pd.DataFrame([row])], ignore_index=True)
else:
    df = pd.DataFrame([row])
df.to_csv(cfg.data_csv, index=False)
```

The CSV file is modelled at row granularity: a `CsvStore` is the header
line plus the sequence of data rows (`pd.read_csv` after `df.to_csv`
recovers exactly the rows that were written, in order).
-/

/-- One persisted record, in the fixed key order of the `row` dict built at
source lines 127–135. -/
structure MetricRow where
  page_time_jst : String
  scrape_time_jst : String
  sell_kwh : Option ℚ
  buy_kwh : Option ℚ
  cons_kwh : Option ℚ
  self_kwh : Option ℚ
  gen_kwh : Option ℚ
deriving DecidableEq, Repr

/-- The fixed column order of the persisted schema. -/
def fixedHeader : List String :=
  ["page_time_jst", "scrape_time_jst", "sell_kwh", "buy_kwh", "cons_kwh",
   "self_kwh", "gen_kwh"]

/-- The backing CSV file: header plus data rows. -/
structure CsvStore where
  header : List String
  rows : List MetricRow
deriving DecidableEq, Repr

/-- Filesystem state of the log: `none` when `cfg.data_csv` does not exist. -/
def StoreState : Type := Option CsvStore

instance : DecidableEq StoreState := by
  unfold StoreState
  infer_instance

/-- The append step of `run_once` (source lines 136–141): read-modify-write
of the whole file.  A fresh store is created with the fixed column order
(the key order of the `row` dict); an existing store keeps its own header
(`pd.concat` aligns the one-row frame to it) and all its rows, and gains
the new row at the end. -/
def LogStore.append (st : StoreState) (row : MetricRow) : StoreState :=
  match st with
  | none => some ⟨fixedHeader, [row]⟩
  | some s => some ⟨s.header, s.rows ++ [row]⟩

/-! ## Snapshot renderer `write_html_snapshot` (source lines 61–95)

Only the data-dependent parts of the rendered page are modelled: the
last-updated label and the table area.  The table area is either the
fixed no-data paragraph (when the CSV does not exist) or the
`df.to_html` rendering of the chosen rows; the surrounding static HTML and
the render-time clock line are presentation only.
-/

/-- The table area of the snapshot: the no-data paragraph
`<p>CSVがまだありません。</p>`, or a table rendering the given header and
rows (`df.to_html(index=False, escape=True, border=0)` of the post-`tail`
frame, with `NaN` cells shown as `""` per `fillna("")`). -/
inductive TableArea where
  | message : TableArea
  | table : List String → List MetricRow → TableArea
deriving DecidableEq, Repr

/-- The data-dependent content of the rendered snapshot. -/
structure Snapshot where
  last_ts : String
  body : TableArea
deriving DecidableEq, Repr

/-- `write_html_snapshot` (source lines 61–95): if the CSV is absent the
label is the placeholder `—` and the body is the no-data paragraph;
otherwise the frame is cut to its last `max_rows` rows (`df.tail`), the
label is the final row's `page_time_jst` (or `—` when there are no rows),
and the body is the rendered table. -/
def write_html_snapshot (store : StoreState) (max_rows : ℕ) : Snapshot :=
  match store with
  | none => ⟨"—", TableArea.message⟩
  | some f =>
    let rows := f.rows.drop (f.rows.length - max_rows)
    match rows.getLast? with
    | some r => ⟨r.page_time_jst, TableArea.table f.header rows⟩
    | none => ⟨"—", TableArea.table f.header rows⟩

/-! ## The orchestrator `run_once` (source lines 97–144)

The browser world is external; its observable outcomes are inputs:
* `authNav` — the combined outcome of lines 104–109 (goto login, fill
  credentials, click submit, wait for network idle, goto dashboard): unit
  on success, or the automation failure that was raised.
* `wait` — the outcome of `page.wait_for_selector(cfg.sels[-1], ...)`
  (lines 110–113): success, a `PWTimeout`, or another raised failure.
* `extract` — the outcome of lines 115–120 building the `data` dict: the
  raw texts (with `None` for missing elements), or a raised failure.
-/

/-- An automation-layer exception other than the tolerated timeout. -/
structure AutomationFailure where
  msg : String
deriving DecidableEq, Repr

/-- Outcome of the bounded selector wait (lines 110–113). -/
inductive WaitResult where
  | ok : WaitResult
  | timeout : WaitResult
  | err : AutomationFailure → WaitResult
deriving DecidableEq, Repr

/-- The `try/except PWTimeout: pass` around the wait: a timeout is
swallowed; any other failure propagates. -/
def handleWait : WaitResult → Except AutomationFailure Unit
  | WaitResult.ok => Except.ok ()
  | WaitResult.timeout => Except.ok ()
  | WaitResult.err f => Except.error f

/-- The raw `data` dict built at lines 115–120: each entry is `None` when
`query_selector` found no element, else the element's stripped text. -/
structure RawExtract where
  page_time : Option String
  sell : Option String
  buy : Option String
  cons : Option String
  selfc : Option String
  gen : Option String
deriving DecidableEq, Repr

/-- The browser block (lines 103–123): authentication/navigation, then the
best-effort wait, then extraction; the first raised failure aborts the
block (the `finally` merely releases the browser). -/
def browserBlock (authNav : Except AutomationFailure Unit) (wait : WaitResult)
    (extract : Except AutomationFailure RawExtract) :
    Except AutomationFailure RawExtract :=
  match authNav with
  | Except.error f => Except.error f
  | Except.ok _ =>
    match handleWait wait with
    | Except.error f => Except.error f
    | Except.ok _ => extract

/-- How a run terminates abnormally. -/
inductive RunErr where
  | config : RunErr
  | auto : AutomationFailure → RunErr
deriving DecidableEq, Repr

/-- The row built at source lines 125–135: the scrape wall clock is taken
truncated to the minute (`replace(second=0, microsecond=0)` followed by
`isoformat(timespec="minutes")` never exposes finer precision), and a
page timestamp that fails to parse falls back to the scrape time
(`parse_time(data.get("page_time") or "") or scrape`). -/
def mkRow (data : RawExtract) (scrape : PyDateTime) : MetricRow :=
  let page_t := (parse_time (data.page_time.getD "")).getD scrape
  ⟨isoMinutes page_t, isoMinutes scrape,
   to_f data.sell, to_f data.buy, to_f data.cons, to_f data.selfc,
   to_f data.gen⟩

/-- Observable result of one run: the final store state, the outcome, and
the snapshot that was rendered (absent when the run aborted first). -/
structure RunResult where
  store : StoreState
  outcome : Except RunErr MetricRow
  snapshot : Option Snapshot

/-- `run_once` (source lines 97–144) as a function of the external world:
configuration environment, browser outcomes, the scrape wall clock, and
the starting store state.  An aborted run leaves the store untouched; a
successful run appends exactly the one new row and re-renders the
snapshot from the new store contents. -/
def run_once (env : String → Option String)
    (authNav : Except AutomationFailure Unit) (wait : WaitResult)
    (extract : Except AutomationFailure RawExtract)
    (scrape : PyDateTime) (st : StoreState) : RunResult :=
  match load_cfg env with
  | Except.error _ => ⟨st, Except.error RunErr.config, none⟩
  | Except.ok _ =>
    match browserBlock authNav wait extract with
    | Except.error f => ⟨st, Except.error (RunErr.auto f), none⟩
    | Except.ok data =>
      let row := mkRow data scrape
      let st2 := LogStore.append st row
      ⟨st2, Except.ok row, some (write_html_snapshot st2 500)⟩

/-! ## Concrete fixtures used by witnesses -/

/-- A concrete metric row used as a witness fixture. -/
def rowA : MetricRow :=
  ⟨"2024-05-01T09:30+09:00", "2024-05-01T09:30+09:00",
   none, none, none, none, none⟩

/-- A second, distinguishable metric row used as a witness fixture. -/
def rowB : MetricRow :=
  ⟨"2024-05-01T09:45+09:00", "2024-05-01T09:45+09:00",
   none, none, none, none, none⟩

/-- A 600-row store content whose final row is `rowB`. -/
def rows600 : List MetricRow := List.replicate 599 rowA ++ [rowB]

/-! ## Helper lemmas -/

/-- Folding appends onto an existing store accumulates the rows in order
and never touches the header. -/
theorem logstore_foldl_append (h : List String) (acc : List MetricRow) :
    ∀ rs : List MetricRow,
      List.foldl LogStore.append (some ⟨h, acc⟩) rs = some ⟨h, acc ++ rs⟩ := by
  intro rs
  induction rs generalizing acc with
  | nil => simp
  | cons r t ih =>
    simp only [List.foldl_cons, LogStore.append]
    rw [ih (acc ++ [r])]
    simp

/-- Dropping fewer elements than the length leaves the last element alone. -/
theorem getLast?_drop_of_lt {α : Type _} :
    ∀ (l : List α) (k : ℕ), k < l.length → (l.drop k).getLast? = l.getLast? := by
  intro l
  induction l with
  | nil =>
    intro k hk
    simp at hk
  | cons a t ih =>
    intro k hk
    cases k with
    | zero => simp
    | succ n =>
      rw [List.drop_succ_cons, ih n (by simpa using hk)]
      cases t with
      | nil => simp at hk
      | cons b t2 => simp

/-! ## Claim C1 — LogStore append is strictly additive -/

/-- Claim C1: appending a sequence of rows to an initially non-existent
store yields exactly those rows in append order under the fixed header;
creation from a non-existent store holds exactly the one new row; and an
append to an existing store keeps its header and all existing rows,
adding only the new row at the end. -/
theorem logstore_append_additive :
    (∀ (r : MetricRow) (rs : List MetricRow),
        List.foldl LogStore.append none (r :: rs) = some ⟨fixedHeader, r :: rs⟩)
    ∧ (∀ r : MetricRow, LogStore.append none r = some ⟨fixedHeader, [r]⟩)
    ∧ (∀ (s : CsvStore) (r : MetricRow),
        LogStore.append (some s) r = some ⟨s.header, s.rows ++ [r]⟩) := by
  refine ⟨?_, fun r => rfl, fun s r => rfl⟩
  intro r rs
  show List.foldl LogStore.append (LogStore.append none r) rs = _
  rw [show LogStore.append none r = some ⟨fixedHeader, [r]⟩ from rfl]
  rw [logstore_foldl_append]
  simp

/-! ## Claim C2 — decimal comma (corrected) -/

/-- Counterexample to claim C2: the numeric parser does not return `12.5`
for the input `12,5`. -/
theorem to_f_decimal_comma_counterexample :
    to_f (some "12,5") ≠ some (mkRat 25 2) := by decide

/-- Claim C2 as amended: since every comma is removed before the pattern
is matched, a literal decimal comma acts as a removed thousands separator,
so the input `12,5` parses as `125`, not `12.5`. -/
theorem to_f_decimal_comma_amended :
    to_f (some "12,5") = some (mkRat 125 1) := by decide

/-! ## Claim C4 — fallback to the scrape time -/

/-- Claim C4: whenever the page-reported timestamp fails to parse, the
persisted row carries the scrape wall-clock minute in `page_time_jst`,
making it equal to `scrape_time_jst`. -/
theorem fallback_page_time (data : RawExtract) (scrape : PyDateTime)
    (h : parse_time (data.page_time.getD "") = none) :
    (mkRow data scrape).page_time_jst = (mkRow data scrape).scrape_time_jst := by
  simp [mkRow, h]

/-- Witness for C4 at a concrete unparseable page timestamp. -/
theorem fallback_page_time_witness :
    parse_time ((some "not a date").getD "") = none
    ∧ (mkRow ⟨some "not a date", none, none, none, none, none⟩
          ⟨2024, 5, 1, 9, 31, JST⟩).page_time_jst
        = (mkRow ⟨some "not a date", none, none, none, none, none⟩
            ⟨2024, 5, 1, 9, 31, JST⟩).scrape_time_jst :=
  ⟨by decide,
   fallback_page_time ⟨some "not a date", none, none, none, none, none⟩
     ⟨2024, 5, 1, 9, 31, JST⟩ (by decide)⟩

/-! ## Claim C5 — numeric parser on noisy input -/

/-- Claim C5: the numeric parser strips thousands-separator commas and
extracts the first signed decimal number from noisy text
(`1,234.5 kWh` parses as `1234.5`), and returns null for empty or absent
input and whenever the pattern finds no match. -/
theorem to_f_spec :
    to_f (some "1,234.5 kWh") = some (mkRat 2469 2)
    ∧ to_f (some "") = none
    ∧ to_f (some "--") = none
    ∧ to_f none = none
    ∧ (∀ s : String, reSearch (stripCommas s) = none → to_f (some s) = none) := by
  refine ⟨by decide, by decide, by decide, rfl, ?_⟩
  intro s h
  by_cases hs : s = ""
  · simp [to_f, hs]
  · simp [to_f, hs, h]

/-- Witness for C5 on a concrete no-match input. -/
theorem to_f_spec_witness :
    reSearch (stripCommas "kWh") = none ∧ to_f (some "kWh") = none :=
  ⟨by decide, to_f_spec.2.2.2.2 "kWh" (by decide)⟩

/-! ## Claim C9 — the selector-wait timeout is swallowed -/

/-- Claim C9: a timed-out selector wait is swallowed and the run behaves
exactly as if the wait had succeeded. -/
theorem wait_timeout_swallowed (env : String → Option String)
    (authNav : Except AutomationFailure Unit)
    (extract : Except AutomationFailure RawExtract)
    (scrape : PyDateTime) (st : StoreState) :
    run_once env authNav WaitResult.timeout extract scrape st
      = run_once env authNav WaitResult.ok extract scrape st := rfl

/-! ## Claim C8 — automation failures abort before persisting -/

/-- Claim C8: a failure raised during authentication/navigation, a
non-timeout failure of the selector wait, or a failure during extraction
aborts the run before the persisting stage, leaving the store exactly as
it was. -/
theorem run_abort_preserves_store (env : String → Option String)
    (authNav : Except AutomationFailure Unit) (wait : WaitResult)
    (extract : Except AutomationFailure RawExtract)
    (scrape : PyDateTime) (st : StoreState)
    (h : (∃ f, authNav = Except.error f) ∨ (∃ f, wait = WaitResult.err f)
        ∨ (∃ f, extract = Except.error f)) :
    (run_once env authNav wait extract scrape st).store = st := by
  have hb : ∃ f, browserBlock authNav wait extract = Except.error f := by
    rcases h with ⟨f, hf⟩ | ⟨f, hf⟩ | ⟨f, hf⟩
    · exact ⟨f, by simp [browserBlock, hf]⟩
    · cases authNav with
      | error f2 => exact ⟨f2, rfl⟩
      | ok u => exact ⟨f, by simp [browserBlock, hf, handleWait]⟩
    · cases authNav with
      | error f2 => exact ⟨f2, rfl⟩
      | ok u =>
        cases hw : handleWait wait with
        | error f2 => exact ⟨f2, by simp [browserBlock, hw]⟩
        | ok v => exact ⟨f, by simp [browserBlock, hw, hf]⟩
  obtain ⟨f, hbf⟩ := hb
  unfold run_once
  cases hc : load_cfg env with
  | error e => rfl
  | ok c => simp [hbf]

/-- Witness for C8: a rejected authentication leaves a concrete one-row
store untouched. -/
theorem run_abort_preserves_store_witness :
    (run_once
        (fun k => if k = "USERNAME" then some "u"
          else if k = "PASSWORD" then some "p" else none)
        (Except.error ⟨"auth rejected"⟩) WaitResult.ok
        (Except.ok ⟨none, none, none, none, none, none⟩)
        ⟨2024, 5, 1, 9, 31, JST⟩
        (some ⟨fixedHeader,
          [⟨"2024-05-01T09:30+09:00", "2024-05-01T09:30+09:00",
            none, none, none, none, none⟩]⟩)).store
      = some ⟨fixedHeader,
          [⟨"2024-05-01T09:30+09:00", "2024-05-01T09:30+09:00",
            none, none, none, none, none⟩]⟩ :=
  run_abort_preserves_store _ _ _ _ _ _ (Or.inl ⟨⟨"auth rejected"⟩, rfl⟩)

/-! ## Claim C3 — timestamp parser -/

/-- Every datetime produced by the strptime model carries the fixed
timezone. -/
theorem strptimeDate_tz (sep : Char) (l : List Char) (d : PyDateTime)
    (h : strptimeDate sep l = some d) : d.tz = JST := by
  unfold strptimeDate at h
  repeat' split at h
  all_goals simp_all
  exact h.symm ▸ rfl

/-- Claim C3: after stripping the as-of marker the parser tries
`YYYY/MM/DD HH:MM` first and `YYYY-MM-DD HH:MM` second, attaches the
fixed timezone to every successful parse, and returns null exactly when
neither format matches (in particular on empty input and on
`not a date`). -/
theorem parse_time_spec :
    parse_time "2024/05/01 09:30 現在" = some ⟨2024, 5, 1, 9, 30, JST⟩
    ∧ parse_time "2024-05-01 09:30" = some ⟨2024, 5, 1, 9, 30, JST⟩
    ∧ parse_time "not a date" = none
    ∧ parse_time "" = none
    ∧ (∀ s : String, parse_time s = none
        ↔ (strptimeDate '/' (cleanTime s) = none
            ∧ strptimeDate '-' (cleanTime s) = none))
    ∧ (∀ (s : String) (d : PyDateTime),
        strptimeDate '/' (cleanTime s) = some d → parse_time s = some d)
    ∧ (∀ (s : String) (d : PyDateTime), parse_time s = some d → d.tz = JST) := by
  refine ⟨by decide, by decide, by decide, by decide, ?_, ?_, ?_⟩
  · intro s
    unfold parse_time
    cases hd : strptimeDate '/' (cleanTime s) with
    | some d => simp [hd]
    | none => simp [hd]
  · intro s d h
    unfold parse_time
    rw [h]
  · intro s d h
    unfold parse_time at h
    cases hd : strptimeDate '/' (cleanTime s) with
    | some d2 =>
      rw [hd] at h
      cases h
      exact strptimeDate_tz '/' (cleanTime s) d hd
    | none =>
      rw [hd] at h
      exact strptimeDate_tz '-' (cleanTime s) d h

/-- Witness for C3: the slash format matches first on a concrete input and
the parser returns that datetime. -/
theorem parse_time_spec_witness :
    strptimeDate '/' (cleanTime "2024/05/01 09:30") = some ⟨2024, 5, 1, 9, 30, JST⟩
    ∧ parse_time "2024/05/01 09:30" = some ⟨2024, 5, 1, 9, 30, JST⟩ :=
  ⟨by decide,
   parse_time_spec.2.2.2.2.2.1 "2024/05/01 09:30" ⟨2024, 5, 1, 9, 30, JST⟩
     (by decide)⟩

/-! ## Claim C6 — configuration validation -/

/-- Claim C6: configuration resolution fails exactly when the resolved
username or password is empty or the metric-selector list has fewer than
five entries, and such a failure is pre-flight: the run aborts with the
store untouched no matter what the browser world would have done. -/
theorem load_cfg_spec (env : String → Option String) :
    ((∃ e, load_cfg env = Except.error e)
      ↔ (cfgUser env = "" ∨ cfgPass env = "" ∨ (cfgSels env).length < 5))
    ∧ (∀ e, load_cfg env = Except.error e →
        ∀ (authNav : Except AutomationFailure Unit) (wait : WaitResult)
          (extract : Except AutomationFailure RawExtract)
          (scrape : PyDateTime) (st : StoreState),
          run_once env authNav wait extract scrape st
            = ⟨st, Except.error RunErr.config, none⟩) := by
  constructor
  · constructor
    · rintro ⟨e, he⟩
      by_cases h1 : cfgUser env = "" ∨ cfgPass env = ""
      · tauto
      · by_cases h2 : (cfgSels env).length < 5
        · tauto
        · simp [load_cfg, h1, h2] at he
    · intro h
      by_cases h1 : cfgUser env = "" ∨ cfgPass env = ""
      · exact ⟨"PV_USERNAME/PV_PASSWORD 未設定", by simp [load_cfg, h1]⟩
      · have h2 : (cfgSels env).length < 5 := by tauto
        exact ⟨"METRIC_SELECTORS は5本必要です", by simp [load_cfg, h1, h2]⟩
  · intro e he authNav wait extract scrape st
    simp [run_once, he]

/-- Witness for C6: with no credentials set, resolution fails and the run
aborts pre-flight with the (non-existent) store untouched. -/
theorem load_cfg_spec_witness :
    load_cfg (fun _ => none) = Except.error "PV_USERNAME/PV_PASSWORD 未設定"
    ∧ run_once (fun _ => none) (Except.ok ()) WaitResult.ok
        (Except.ok ⟨none, none, none, none, none, none⟩)
        ⟨2024, 5, 1, 9, 31, JST⟩ none
      = ⟨none, Except.error RunErr.config, none⟩ :=
  ⟨by decide,
   (load_cfg_spec (fun _ => none)).2 "PV_USERNAME/PV_PASSWORD 未設定"
     (by decide) (Except.ok ()) WaitResult.ok
     (Except.ok ⟨none, none, none, none, none, none⟩)
     ⟨2024, 5, 1, 9, 31, JST⟩ none⟩

/-! ## Claim C7 — snapshot renderer (corrected) -/

/-- Counterexample to claim C7: for a store that exists but holds zero
rows, the table area is a rendered (empty) table, not the no-data
message — the message appears only when the backing file is absent. -/
theorem snapshot_empty_store_counterexample :
    (write_html_snapshot (some ⟨fixedHeader, []⟩) 500).body ≠ TableArea.message := by
  decide

/-- Claim C7 as amended: a 600-row store renders exactly its last 500 rows
in original order with the last-updated label taken from the final row;
an absent store renders the placeholder label and the no-data message; a
store that exists with zero rows renders the placeholder label and an
empty table (not the no-data message). -/
theorem write_html_snapshot_spec :
    (∀ (h : List String) (rows : List MetricRow) (r : MetricRow),
        rows.length = 600 → rows.getLast? = some r →
        write_html_snapshot (some ⟨h, rows⟩) 500
          = ⟨r.page_time_jst, TableArea.table h (rows.drop 100)⟩)
    ∧ write_html_snapshot none 500 = ⟨"—", TableArea.message⟩
    ∧ (∀ h : List String,
        write_html_snapshot (some ⟨h, []⟩) 500 = ⟨"—", TableArea.table h []⟩) := by
  refine ⟨?_, rfl, fun h => rfl⟩
  intro h rows r hlen hlast
  have hdrop : rows.length - 500 = 100 := by omega
  have hd : (rows.drop 100).getLast? = some r := by
    rw [getLast?_drop_of_lt rows 100 (by omega), hlast]
  simp only [write_html_snapshot, hdrop, hd]

/-- Witness for C7 on a concrete 600-row store. -/
theorem write_html_snapshot_spec_witness :
    rows600.length = 600
    ∧ write_html_snapshot (some ⟨fixedHeader, rows600⟩) 500
      = ⟨rowB.page_time_jst, TableArea.table fixedHeader (rows600.drop 100)⟩ :=
  ⟨by simp [rows600],
   write_html_snapshot_spec.1 fixedHeader rows600 rowB (by simp [rows600])
     (by simp [rows600, List.getLast?_concat])⟩

/-! ## Claim C10 — totality of the two parsers

The delicate half is the numeric parser: `float(m.group(0))` could in
principle raise, but every matched token is a well-formed float literal
because the commas were removed before matching.  The lemmas below derive
the shape of every possible match and show the float model accepts it.
-/

/-- Digits followed by a non-digit split cleanly under
`takeWhile`/`dropWhile`. -/
theorem takeWhile_digits_append (ds : List Char) (x : Char) (l2 : List Char)
    (h1 : ∀ c ∈ ds, Char.isDigit c) (hx : ¬ Char.isDigit x) :
    (ds ++ x :: l2).takeWhile Char.isDigit = ds
    ∧ (ds ++ x :: l2).dropWhile Char.isDigit = x :: l2 := by
  induction ds with
  | nil =>
    simp [List.takeWhile_cons_of_neg hx, List.dropWhile_cons_of_neg hx]
  | cons d t ih =>
    have hd : Char.isDigit d := h1 d (by simp)
    obtain ⟨iht, ihd⟩ := ih (fun c hc => h1 c (by simp [hc]))
    simp [List.takeWhile_cons_of_pos hd, List.dropWhile_cons_of_pos hd, iht, ihd]

/-- The float model accepts any nonempty digit string. -/
theorem pyFloatBody_digits (ds : List Char) (h : ∀ c ∈ ds, Char.isDigit c)
    (hne : ds ≠ []) : pyFloatBody ds = some (mkRat (natVal ds) 1) := by
  have h1 : ds.takeWhile Char.isDigit = ds := List.takeWhile_eq_self_iff.mpr h
  have h2 : ds.dropWhile Char.isDigit = [] := List.dropWhile_eq_nil_iff.mpr h
  simp only [pyFloatBody, h1, h2]
  simp [hne]

/-- The float model accepts `digits.digits` with both runs nonempty. -/
theorem pyFloatBody_frac (ds fs : List Char) (hds : ∀ c ∈ ds, Char.isDigit c)
    (hdne : ds ≠ []) (hfs : ∀ c ∈ fs, Char.isDigit c) (_hfne : fs ≠ []) :
    (pyFloatBody (ds ++ '.' :: fs)).isSome := by
  have hdot : ¬ Char.isDigit '.' := by decide
  obtain ⟨htw, hdw⟩ := takeWhile_digits_append ds '.' fs hds hdot
  have h1 : fs.takeWhile Char.isDigit = fs := List.takeWhile_eq_self_iff.mpr hfs
  have h2 : fs.dropWhile Char.isDigit = [] := List.dropWhile_eq_nil_iff.mpr hfs
  simp only [pyFloatBody, htw, hdw, h1, h2]
  simp [hdne]

/-- On a token that starts with a digit, the sign cases of the float model
do not fire. -/
theorem pyFloat_eq_body (c : Char) (rest : List Char) (hc : Char.isDigit c) :
    pyFloat (c :: rest) = pyFloatBody (c :: rest) := by
  have h1 : c ≠ '-' := by rintro rfl; exact absurd hc (by decide)
  have h2 : c ≠ '+' := by rintro rfl; exact absurd hc (by decide)
  simp [pyFloat, h1, h2]

/-- The float model accepts a nonempty digit token. -/
theorem pyFloat_digits_isSome (ds : List Char) (h : ∀ c ∈ ds, Char.isDigit c)
    (hne : ds ≠ []) : (pyFloat ds).isSome := by
  cases ds with
  | nil => exact absurd rfl hne
  | cons c t =>
    rw [pyFloat_eq_body c t (h c (by simp))]
    rw [pyFloatBody_digits _ h (by simp)]
    rfl

/-- The float model accepts a `digits.digits` token. -/
theorem pyFloat_frac_isSome (ds fs : List Char) (hds : ∀ c ∈ ds, Char.isDigit c)
    (hdne : ds ≠ []) (hfs : ∀ c ∈ fs, Char.isDigit c) (hfne : fs ≠ []) :
    (pyFloat (ds ++ '.' :: fs)).isSome := by
  cases ds with
  | nil => exact absurd rfl hdne
  | cons c t =>
    have hc : Char.isDigit c := hds c (by simp)
    rw [List.cons_append, pyFloat_eq_body c (t ++ '.' :: fs) hc, ← List.cons_append]
    exact pyFloatBody_frac (c :: t) fs hds (by simp) hfs hfne

/-- Every element surviving `dropWhile` was in the original list. -/
theorem mem_of_mem_dropWhile {p : Char → Bool} :
    ∀ (l : List Char) (c : Char), c ∈ l.dropWhile p → c ∈ l := by
  intro l
  induction l with
  | nil =>
    intro c hc
    simp [List.dropWhile] at hc
  | cons a t ih =>
    intro c hc
    by_cases ha : p a
    · rw [List.dropWhile_cons_of_pos ha] at hc
      exact List.mem_cons_of_mem a (ih c hc)
    · rw [List.dropWhile_cons_of_neg ha] at hc
      exact hc

/-- Every token produced by the regex body on comma-free input is accepted
by the float model, and starts with a digit. -/
theorem matchBody_main (l t : List Char) (hnc : ∀ c ∈ l, c ≠ ',')
    (h : matchBody l = some t) :
    (pyFloat t).isSome ∧ ∃ c rest, t = c :: rest ∧ Char.isDigit c := by
  have hdig : ∀ c ∈ l.takeWhile Char.isDigit, Char.isDigit c :=
    fun c hc => List.mem_takeWhile_imp hc
  by_cases hds : l.takeWhile Char.isDigit = []
  · simp [matchBody, hds] at h
  · have base : (pyFloat (l.takeWhile Char.isDigit)).isSome
        ∧ ∃ c rest, l.takeWhile Char.isDigit = c :: rest ∧ Char.isDigit c := by
      refine ⟨pyFloat_digits_isSome _ hdig hds, ?_⟩
      cases hcase : l.takeWhile Char.isDigit with
      | nil => exact absurd hcase hds
      | cons c rest =>
        exact ⟨c, rest, rfl, hdig c (by rw [hcase]; simp)⟩
    cases hdw : l.dropWhile Char.isDigit with
    | nil =>
      simp [matchBody, hds, hdw] at h
      subst h
      exact base
    | cons sep r2 =>
      have hsep_mem : sep ∈ l := mem_of_mem_dropWhile l sep (by rw [hdw]; simp)
      have hsep_ne : sep ≠ ',' := hnc sep hsep_mem
      by_cases hsep : sep = '.' ∨ sep = ','
      · have hdot : sep = '.' := by tauto
        subst hdot
        by_cases hfs : r2.takeWhile Char.isDigit = []
        · simp [matchBody, hds, hdw, hfs] at h
          subst h
          exact base
        · simp [matchBody, hds, hdw, hfs] at h
          have hfs_dig : ∀ c ∈ r2.takeWhile Char.isDigit, Char.isDigit c :=
            fun c hc => List.mem_takeWhile_imp hc
          subst h
          constructor
          · exact pyFloat_frac_isSome _ _ hdig hds hfs_dig hfs
          · obtain ⟨c, rest, hcr, hc⟩ := base.2
            refine ⟨c, rest ++ '.' :: r2.takeWhile Char.isDigit, ?_, hc⟩
            rw [hcr]
            simp
      · simp [matchBody, hds, hdw, hsep] at h
        subst h
        exact base

/-- Every token produced by the full pattern on comma-free input is
accepted by the float model. -/
theorem matchAt_pyFloat (l t : List Char) (hnc : ∀ c ∈ l, c ≠ ',')
    (h : matchAt l = some t) : (pyFloat t).isSome := by
  cases l with
  | nil => simp [matchAt] at h
  | cons c rest =>
    by_cases hsign : c = '-' ∨ c = '+'
    · simp only [matchAt, hsign, if_true] at h
      cases hm : matchBody rest with
      | none =>
        rw [hm] at h
        simp at h
      | some t2 =>
        rw [hm] at h
        simp only [Option.map_some'] at h
        have hrest : ∀ c2 ∈ rest, c2 ≠ ',' := fun c2 hc2 => hnc c2 (by simp [hc2])
        obtain ⟨hsome, c2, r2, hct, hc2⟩ := matchBody_main rest t2 hrest hm
        have hbody : (pyFloatBody t2).isSome := by
          rw [hct, ← pyFloat_eq_body c2 r2 hc2, ← hct]
          exact hsome
        obtain ⟨v, hv⟩ := Option.isSome_iff_exists.mp hbody
        cases h
        rcases hsign with rfl | rfl
        · simp [pyFloat, hv]
        · have hpm : ('+' : Char) ≠ '-' := by decide
          simp [pyFloat, hpm, hv]
    · simp only [matchAt, hsign, if_false] at h
      exact (matchBody_main _ _ hnc h).1

/-- Every token found by the leftmost search on comma-free input is
accepted by the float model. -/
theorem reSearch_pyFloat :
    ∀ l t : List Char, (∀ c ∈ l, c ≠ ',') → reSearch l = some t →
      (pyFloat t).isSome := by
  intro l
  induction l with
  | nil =>
    intro t hnc hr
    simp [reSearch] at hr
  | cons c rest ih =>
    intro t hnc hr
    cases hm : matchAt (c :: rest) with
    | some t2 =>
      simp only [reSearch] at hr
      rw [hm] at hr
      cases hr
      exact matchAt_pyFloat (c :: rest) t hnc hm
    | none =>
      simp only [reSearch] at hr
      rw [hm] at hr
      exact ih t (fun c2 hc2 => hnc c2 (by simp [hc2])) hr

/-- The comma-stripped input contains no comma. -/
theorem stripCommas_no_comma (s : String) : ∀ c ∈ stripCommas s, c ≠ ',' := by
  intro c hc
  simp only [stripCommas, List.mem_filter] at hc
  intro h
  subst h
  simpa using hc.2

/-- Claim C10: both parsers are total — for every input they return a
value or null and never raise.  For the numeric parser the float
conversion of a matched token always succeeds (commas are removed before
matching); the timestamp parser catches every failure internally and so
always returns some datetime or null. -/
theorem parsers_total :
    (∀ x : Option String, to_f_raises x = false)
    ∧ (∀ s : String, parse_time s = none ∨ ∃ d, parse_time s = some d) := by
  constructor
  · intro x
    cases x with
    | none => rfl
    | some s =>
      by_cases hs : s = ""
      · simp [to_f_raises, hs]
      · cases hm : reSearch (stripCommas s) with
        | none => simp [to_f_raises, hs, hm]
        | some tok =>
          have hsome := reSearch_pyFloat (stripCommas s) tok (stripCommas_no_comma s) hm
          obtain ⟨v, hv⟩ := Option.isSome_iff_exists.mp hsome
          simp [to_f_raises, hs, hm, hv]
  · intro s
    cases h : parse_time s with
    | none => exact Or.inl rfl
    | some d => exact Or.inr ⟨d, rfl⟩

